import Mathlib

/-!
Shallow embedding of `src/main.py` (Edison chat service): the in-memory
session store (`chat_sessions`), the rule-based responder
(`generate_response_sync`), the delegating ChatKit workflow
(`run_workflow` / `generate_response`) with its two remote calls modelled
as an explicit environment, and the HTTP handlers `chat`, `clear_chat`,
`get_history`.  Python strings are Lean `String`s; Python `in` on strings
is `strContains`; `str.lower()` is the character-wise `strLower`; a Python
exception surface is an `Except String` result carrying `str(e)`.
-/

set_option maxRecDepth 20000

deriving instance DecidableEq for Except

namespace Edison

/-- Role field of a `Message` record: the source stores "user" or "assistant". -/
inductive Role
  | user
  | assistant
deriving DecidableEq

/-- Message pydantic model of `src/main.py` (role, content, optional timestamp). -/
structure Message where
  role : Role
  content : String
  timestamp : String
deriving DecidableEq

/-- Python lists are heterogeneous, so a session-log entry may be a bare
string or a full `Message` record; `src/main.py` only ever appends strings
(`user_message.content`), which the theorems below make explicit. -/
inductive LogEntry
  | str : String → LogEntry
  | msg : Message → LogEntry
deriving DecidableEq

/-- LogEntry test: does the entry carry a `Message` record (with role and
timestamp), as opposed to a bare content string? -/
def LogEntry.isMsg : LogEntry → Bool
  | .msg _ => true
  | .str _ => false

/-- ChatRequest body of `POST /api/chat`; pydantic applies the default
session id "default" before the handler runs, hence a plain `String` here. -/
structure ChatRequest where
  message : String
  session_id : String
deriving DecidableEq

/-- ChatResponse body of `POST /api/chat`. -/
structure ChatResponse where
  response : String
  session_id : String
  timestamp : String
deriving DecidableEq

/-- Response body of `GET /api/chat/history/{session_id}`. -/
structure HistoryResponse where
  session_id : String
  messages : List LogEntry
deriving DecidableEq

/-- Sessions is the type of the global `chat_sessions` dict, embedded as an
association list from session id to message log. -/
abbrev Sessions := List (String × List LogEntry)

/-- Python `d[k]` / `d.get(k)` on the embedded dict. -/
def dictGet (d : Sessions) (k : String) : Option (List LogEntry) :=
  match d with
  | [] => none
  | (k', v) :: rest => if k' = k then some v else dictGet rest k

/-- Python `d[k] = v` on the embedded dict: replaces the binding if present,
otherwise adds it. -/
def dictSet (d : Sessions) (k : String) (v : List LogEntry) : Sessions :=
  match d with
  | [] => [(k, v)]
  | (k', v') :: rest => if k' = k then (k, v) :: rest else (k', v') :: dictSet rest k v

/-- Character-wise lowercasing, matching Python `str.lower()` on the ASCII
inputs this service handles (Lean `String.toLower` is the same map but does
not reduce in the kernel, so we map over the character list directly). -/
def strLower (s : String) : String := ⟨s.data.map Char.toLower⟩

/-- occursIn needle hay: does `needle` occur as a contiguous run inside
`hay`?  (Executable form of list infixhood.) -/
def occursIn (needle : List Char) : List Char → Bool
  | [] => needle.isEmpty
  | c :: rest => needle.isPrefixOf (c :: rest) || occursIn needle rest

/-- Python `needle in haystack` on strings. -/
def strContains (haystack needle : String) : Bool :=
  occursIn needle.data haystack.data

/-- Rule 1 of `generate_response_sync`: a greeting keyword occurs in the
lowercased input. -/
def matches_greeting (message_lower : String) : Bool :=
  ["hello", "hi", "hey", "moshi"].any (fun greeting => strContains message_lower greeting)

/-- Rule 2 of `generate_response_sync`: "stella" occurs in the lowercased input. -/
def matches_stella (message_lower : String) : Bool :=
  strContains message_lower "stella"

/-- Rule 3 of `generate_response_sync`: an identity-question phrase occurs in
the lowercased input. -/
def matches_identity (message_lower : String) : Bool :=
  ["who are you", "what are you", "introduce"].any (fun word => strContains message_lower word)

/-- Rule 4 of `generate_response_sync`: a capability-question phrase occurs in
the lowercased input. -/
def matches_capability (message_lower : String) : Bool :=
  ["help", "what can you do", "capabilities"].any (fun word => strContains message_lower word)

/-- generate_response_sync from `src/main.py`: the rule-based responder.  The
`history` argument is received but never read, exactly as in the source.
The first four checks are against the lowercased input; the question-mark
check is against the raw input, as in the source. -/
def generate_response_sync (user_message : String) (history : List LogEntry) : String :=
  let message_lower := strLower user_message
  if matches_greeting message_lower then
    "Hello! I\x27m Edison, here to help you. What would you like to know?"
  else if matches_stella message_lower then
    "Stella is currently unavailable, but I\x27m here to assist you with whatever you need!"
  else if matches_identity message_lower then
    "I am Edison, an AI assistant. Stella is unavailable right now, so I will be handling all your queries. I\x27m here to help answer questions, provide information, and assist you with various tasks!"
  else if matches_capability message_lower then
    "I can help you with various tasks such as:\n- Answering questions\n- Providing information\n- Having conversations\n- And much more!\n\nNote: I\x27m now powered by OpenAI\x27s ChatKit agents for intelligent responses."
  else if strContains user_message "?" then
    "That\x27s an interesting question! Let me think about that: \x27" ++ user_message ++ "\x27. I\x27m processing this with my AI capabilities."
  else
    "I understand you said: \x27" ++ user_message ++ "\x27. I\x27m Edison, your AI assistant powered by OpenAI ChatKit, ready to help with any questions or tasks you have."

/-- SearchResult models one element of `search_response.data`: each attribute
is read with `getattr(..., default)` in the source, so attributes that may be
absent are `Option`s.  The numeric `score` attribute is extracted into the
result dict but never read afterwards, so it is omitted here. -/
structure SearchResult where
  file_id : Option String
  filename : Option String
  content : Option String

/-- WorkflowEnv supplies the behaviour of the two remote collaborators of the
delegating path, the only points where `run_workflow` can suspend or fail:
`search q` is the outcome of `client.vector_stores.search` on query `q`
(`.error msg` an exception, `.ok none` a response without a usable `data`
attribute, `.ok (some rs)` a response with `data = rs`); `agentRun k q` is
the outcome of `Runner.run` on the agent whose context interpolates
knowledge `k` and user query `q` (`.error msg` an exception, `.ok out` the
final output text). -/
structure WorkflowEnv where
  search : String → Except String (Option (List SearchResult))
  agentRun : String → String → Except String String

/-- WorkflowInput pydantic model. -/
structure WorkflowInput where
  input_as_text : String

/-- transform_result variable of `run_workflow`: the try/except block around
the vector-store search.  On an exception the result is `None`; on a
response whose `data` is missing or empty the collected result list is empty
and the sentinel string "No relevant knowledge found" is produced; otherwise
the first result's content (defaulted if the attribute is absent). -/
def transform_result (env : WorkflowEnv) (input_as_text : String) : Option String :=
  match env.search input_as_text with
  | .error _ => none
  | .ok data =>
    let results : List SearchResult :=
      match data with
      | some l => l
      | none => []
    match results with
    | r :: _ => some (r.content.getD "No content available")
    | [] => some "No relevant knowledge found"

/-- run_workflow from `src/main.py`: vector search, then — when
`transform_result["result"]` is truthy — the main agent (its own exceptions
converted to a fixed apology), else the "Sorry, I can\x27t help." message.
Every modelled exception is caught inside the body, so the result is always
`.ok`; the `Except` type records that a Python coroutine can in principle
raise. -/
def run_workflow (env : WorkflowEnv) (workflow_input : WorkflowInput) : Except String String :=
  match transform_result env workflow_input.input_as_text with
  | some result =>
    if result ≠ "" then
      match env.agentRun result workflow_input.input_as_text with
      | .ok output_text => .ok output_text
      | .error e =>
        .ok ("I\x27m Edison, your AI assistant. I encountered an issue with the ChatKit workflow: "
          ++ e ++ ". How can I help you today?")
    else
      .ok "Sorry, I can\x27t help."
  | none => .ok "Sorry, I can\x27t help."

/-- generate_response from `src/main.py`: wraps `run_workflow`, catching any
exception and returning a fixed apology string.  The `history` argument is
received but never read, exactly as in the source. -/
def generate_response (env : WorkflowEnv) (user_message : String) (history : List LogEntry) :
    Except String String :=
  match run_workflow env ⟨user_message⟩ with
  | .ok output_text => .ok output_text
  | .error e =>
    .ok ("I\x27m Edison, your AI assistant. I encountered an issue processing your request: "
      ++ e ++ ". Please try again.")

/-- chat_user_message: the `user_message = Message(role="user", ...)` value
constructed in the `chat` handler. -/
def chat_user_message (request : ChatRequest) (timestamp : String) : Message :=
  ⟨.user, request.message, timestamp⟩

/-- chat_assistant_message: the `assistant_message = Message(role="assistant",
...)` value constructed in the `chat` handler. -/
def chat_assistant_message (response_text : String) (timestamp : String) : Message :=
  ⟨.assistant, response_text, timestamp⟩

/-- chat handler of `POST /api/chat` from `src/main.py`.  `now` is the value
of `datetime.now().isoformat()` for this request.  Note that the handler
appends `user_message.content` and `assistant_message.content` — bare
strings — to the session log, not the `Message` records themselves. -/
def chat (env : WorkflowEnv) (sessions : Sessions) (request : ChatRequest) (now : String) :
    Sessions × ChatResponse :=
  let session_id := request.session_id
  let sessions1 := if (dictGet sessions session_id).isNone then dictSet sessions session_id [] else sessions
  let timestamp := now
  let user_message := chat_user_message request timestamp
  let sessions2 := dictSet sessions1 session_id
    ((dictGet sessions1 session_id).getD [] ++ [LogEntry.str user_message.content])
  let response_text :=
    match generate_response env user_message.content ((dictGet sessions2 session_id).getD []) with
    | .ok s => s
    | .error _ => generate_response_sync user_message.content ((dictGet sessions2 session_id).getD [])
  let assistant_message := chat_assistant_message response_text timestamp
  let sessions3 := dictSet sessions2 session_id
    ((dictGet sessions2 session_id).getD [] ++ [LogEntry.str assistant_message.content])
  (sessions3, ⟨response_text, session_id, timestamp⟩)

/-- clear_chat handler of `POST /api/chat/clear` from `src/main.py`: the body
is a plain dict, so the session id is `request.get("session_id", "default")`. -/
def clear_chat (sessions : Sessions) (request_session_id : Option String) :
    Sessions × (String × String) :=
  let session_id := request_session_id.getD "default"
  let sessions1 := if (dictGet sessions session_id).isSome then dictSet sessions session_id [] else sessions
  (sessions1, ("success", "Chat history cleared"))

/-- get_history handler of `GET /api/chat/history/{session_id}` from
`src/main.py`: returns `chat_sessions.get(session_id, [])`. -/
def get_history (sessions : Sessions) (session_id : String) : HistoryResponse :=
  ⟨session_id, (dictGet sessions session_id).getD []⟩

/-- delegationFailed holds exactly when the executed delegating path hits an
exception on input `text`: the vector search raises, or the agent invocation
raises on the knowledge/query pair the workflow would pass it. -/
def delegationFailed (env : WorkflowEnv) (text : String) : Bool :=
  match env.search text with
  | .error _ => true
  | .ok _ =>
    match transform_result env text with
    | some result =>
      if result ≠ "" then
        match env.agentRun result text with
        | .ok _ => false
        | .error _ => true
      else false
    | none => false

/-- chatResponseText: the response text a `chat` turn produces for a given
input under a given environment (well defined because neither generator
variant reads the history it is passed). -/
def chatResponseText (env : WorkflowEnv) (text : String) : String :=
  match generate_response env text [] with
  | .ok s => s
  | .error _ => generate_response_sync text []

/-- runTurns: sequentially completed chat turns on one session id; each turn
is a (message, timestamp) pair. -/
def runTurns (env : WorkflowEnv) (sessions : Sessions) (sid : String)
    (turns : List (String × String)) : Sessions :=
  match turns with
  | [] => sessions
  | (msg, now) :: rest => runTurns env (chat env sessions ⟨msg, sid⟩ now).1 sid rest

/-- envSearchFail: a concrete environment whose vector search always raises. -/
def envSearchFail : WorkflowEnv :=
  ⟨fun _ => .error "connection refused", fun _ _ => .ok "unused"⟩

/-- envAgentFail: a concrete environment whose search succeeds with a match
but whose agent invocation always raises. -/
def envAgentFail : WorkflowEnv :=
  ⟨fun _ => .ok (some [⟨some "f1", some "cv.md", some "Akshay is an engineer."⟩]),
   fun _ _ => .error "rate limited"⟩

/-- envNoMatches: a concrete environment whose vector search completes
normally with zero matches and whose agent reports having been invoked. -/
def envNoMatches : WorkflowEnv :=
  ⟨fun _ => .ok (some []),
   fun knowledge _ => .ok ("AGENT INVOKED with: " ++ knowledge)⟩

/-! Helper lemmas about the embedded dict, strings and the handlers. -/

theorem charOfNatAux_toNat (n : Nat) (h : n.isValidChar) : (Char.ofNatAux n h).toNat = n := by
  simp [Char.ofNatAux, Char.toNat, UInt32.toNat, BitVec.toNat_ofNatLt]

theorem toLower_eq_qmark (c : Char) (h : c.toLower = '?') : c = '?' := by
  unfold Char.toLower at h
  dsimp only at h
  split at h
  · exfalso
    rename_i hcond
    have hv : (c.toNat + 32).isValidChar := by
      left
      omega
    rw [Char.ofNat, dif_pos hv] at h
    have h2 := congrArg Char.toNat h
    rw [charOfNatAux_toNat] at h2
    have h3 : Char.toNat '?' = 63 := by decide
    omega
  · exact h

theorem beq_qmark_toLower (x : Char) : ('?' == x.toLower) = ('?' == x) := by
  by_cases hx : x = '?'
  · subst hx
    decide
  · have h1 : x.toLower ≠ '?' := fun hh => hx (toLower_eq_qmark x hh)
    have l1 : ('?' == x.toLower) = false := by
      simp [beq_eq_false_iff_ne]
      exact fun hh => h1 hh.symm
    have l2 : ('?' == x) = false := by
      simp [beq_eq_false_iff_ne]
      exact fun hh => hx hh.symm
    rw [l1, l2]

theorem occursIn_qmark_map_toLower (l : List Char) :
    occursIn ['?'] (l.map Char.toLower) = occursIn ['?'] l := by
  induction l with
  | nil => rfl
  | cons c rest ih =>
    simp only [List.map_cons, occursIn, ih]
    congr 1
    simp only [List.isPrefixOf, Bool.and_true]
    exact beq_qmark_toLower c

/-- Lowercasing neither creates nor destroys a question mark, so the
question-mark check of `generate_response_sync` (made on the raw input in
the source) agrees with the same check on the lowercased input. -/
theorem strContains_lower_qmark (s : String) :
    strContains (strLower s) "?" = strContains s "?" := by
  have hd : ("?" : String).data = ['?'] := rfl
  simp only [strContains, strLower, hd]
  exact occursIn_qmark_map_toLower s.data

theorem dictGet_dictSet_self (d : Sessions) (k : String) (v : List LogEntry) :
    dictGet (dictSet d k v) k = some v := by
  induction d with
  | nil => simp [dictGet, dictSet]
  | cons head rest ih =>
    obtain ⟨k', v'⟩ := head
    by_cases h : k' = k
    · simp [dictGet, dictSet, h]
    · simp [dictGet, dictSet, h, ih]

theorem append3_ne_empty (a b c : String) (h : a.data ≠ []) : a ++ b ++ c ≠ "" := by
  intro hEq
  apply h
  have hdata : (a ++ b ++ c).data = ("" : String).data := by rw [hEq]
  rw [String.data_append, String.data_append] at hdata
  simp only [List.append_eq, List.append_assoc] at hdata
  have : a.data ++ (b.data ++ c.data) = [] := hdata
  exact (List.append_eq_nil.mp this).1

/-- chat never reads the history it passes to the generators, so the response
of a turn is a function of the environment and the input text alone. -/
theorem chat_response_eq (env : WorkflowEnv) (sessions : Sessions) (request : ChatRequest)
    (now : String) :
    (chat env sessions request now).2.response = chatResponseText env request.message := rfl

theorem chat_timestamp_eq (env : WorkflowEnv) (sessions : Sessions) (request : ChatRequest)
    (now : String) :
    (chat env sessions request now).2.timestamp = now := rfl

/-- Neither generator variant reads the history it is passed (the source
receives the argument and never mentions it again). -/
theorem generate_response_hist_irrel (env : WorkflowEnv) (m : String) (h : List LogEntry) :
    generate_response env m h = generate_response env m [] := rfl

theorem generate_response_sync_hist_irrel (m : String) (h : List LogEntry) :
    generate_response_sync m h = generate_response_sync m [] := rfl

/-- One chat turn appends exactly the user text and the response text — as
bare strings — to the session's log, and touches nothing else of the log. -/
theorem chat_log_append (env : WorkflowEnv) (sessions : Sessions) (request : ChatRequest)
    (now : String) :
    (dictGet (chat env sessions request now).1 request.session_id).getD []
      = (dictGet sessions request.session_id).getD []
        ++ [LogEntry.str request.message, LogEntry.str (chatResponseText env request.message)] := by
  rcases h : dictGet sessions request.session_id with _ | l
  · simp [chat, h, dictGet_dictSet_self, chat_user_message, chat_assistant_message,
      chatResponseText]
    rfl
  · simp [chat, h, dictGet_dictSet_self, chat_user_message, chat_assistant_message,
      chatResponseText]
    rfl

/-- run_workflow when the vector search raised or the top content was empty. -/
theorem run_workflow_cannot_help (env : WorkflowEnv) (wi : WorkflowInput)
    (hT : transform_result env wi.input_as_text = none ∨
      transform_result env wi.input_as_text = some "") :
    run_workflow env wi = Except.ok "Sorry, I can\x27t help." := by
  rcases hT with hT | hT
  · unfold run_workflow
    rw [hT]
  · unfold run_workflow
    rw [hT]
    simp

/-- run_workflow when the agent invocation raised. -/
theorem run_workflow_agent_error (env : WorkflowEnv) (wi : WorkflowInput) (r e : String)
    (hT : transform_result env wi.input_as_text = some r) (hr : r ≠ "")
    (hA : env.agentRun r wi.input_as_text = Except.error e) :
    run_workflow env wi = Except.ok
      ("I\x27m Edison, your AI assistant. I encountered an issue with the ChatKit workflow: "
        ++ e ++ ". How can I help you today?") := by
  unfold run_workflow
  rw [hT]
  dsimp only
  rw [if_pos hr, hA]

/-- run_workflow when the agent invocation succeeded. -/
theorem run_workflow_agent_ok (env : WorkflowEnv) (wi : WorkflowInput) (r s : String)
    (hT : transform_result env wi.input_as_text = some r) (hr : r ≠ "")
    (hA : env.agentRun r wi.input_as_text = Except.ok s) :
    run_workflow env wi = Except.ok s := by
  unfold run_workflow
  rw [hT]
  dsimp only
  rw [if_pos hr, hA]

theorem run_workflow_isOk (env : WorkflowEnv) (wi : WorkflowInput) :
    ∃ s, run_workflow env wi = Except.ok s := by
  unfold run_workflow
  rcases transform_result env wi.input_as_text with _ | r
  · exact ⟨_, rfl⟩
  · by_cases hr : r = ""
    · simp [hr]
    · rcases hA : env.agentRun r wi.input_as_text with e | s
      · simp [hr, hA]
      · simp [hr, hA]

theorem chatResponseText_of_run (env : WorkflowEnv) (t s : String)
    (h : run_workflow env ⟨t⟩ = Except.ok s) : chatResponseText env t = s := by
  simp only [chatResponseText, generate_response, h]

theorem chatResponseText_ne_empty_of_failed (env : WorkflowEnv) (t : String)
    (hfail : delegationFailed env t = true) : chatResponseText env t ≠ "" := by
  unfold delegationFailed at hfail
  rcases hS : env.search t with e | data
  · have hT : transform_result env t = none := by simp [transform_result, hS]
    rw [chatResponseText_of_run env t _ (run_workflow_cannot_help env ⟨t⟩ (Or.inl hT))]
    decide
  · rw [hS] at hfail
    dsimp only at hfail
    rcases hT : transform_result env t with _ | r
    · rw [hT] at hfail
      dsimp only at hfail
      exact Bool.noConfusion hfail
    · rw [hT] at hfail
      dsimp only at hfail
      by_cases hr : r = ""
      · rw [hr] at hfail
        simp at hfail
      · rcases hA : env.agentRun r t with e2 | s
        · rw [chatResponseText_of_run env t _ (run_workflow_agent_error env ⟨t⟩ r e2 hT hr hA)]
          apply append3_ne_empty
          decide
        · rw [if_pos hr, hA] at hfail
          dsimp only at hfail
          exact Bool.noConfusion hfail

/-- Sequential turns on one session extend its log by one user/assistant
string pair per turn, in call order. -/
theorem runTurns_log (env : WorkflowEnv) (sid : String) (turns : List (String × String))
    (sessions : Sessions) :
    (dictGet (runTurns env sessions sid turns) sid).getD []
      = (dictGet sessions sid).getD []
        ++ (turns.map (fun t => [LogEntry.str t.1,
            LogEntry.str (chatResponseText env t.1)])).flatten := by
  induction turns generalizing sessions with
  | nil => simp [runTurns]
  | cons t rest ih =>
    obtain ⟨msg, now⟩ := t
    rw [runTurns, ih]
    have h := chat_log_append env sessions ⟨msg, sid⟩ now
    dsimp only at h
    rw [h]
    simp

theorem join_pairs_length (f g : String → LogEntry) (l : List (String × String)) :
    ((l.map (fun t => [f t.1, g t.1])).flatten).length = 2 * l.length := by
  induction l with
  | nil => simp
  | cons x xs ih =>
    simp only [List.map_cons, List.flatten_cons, List.length_append, List.length_cons,
      List.length_nil, ih, List.length_cons]
    omega

/-- Clearing a session always leaves it with an empty history, whether or not
it existed. -/
theorem get_history_clear (sessions : Sessions) (sid : String) :
    (get_history (clear_chat sessions (some sid)).1 sid).messages = [] := by
  rcases h : dictGet sessions sid with _ | l
  · simp [clear_chat, get_history, h]
  · simp [clear_chat, get_history, h, dictGet_dictSet_self]

/-! Claim theorems. -/

/-- C1: for every well-formed request, even when the delegating (ChatKit)
path fails for any reason, `POST /api/chat` returns a non-empty response
string, and the handled turn appends exactly one user message and one
assistant message (their content strings) to that session's log — never
zero and never a partial turn. -/
theorem C1_failure_nonempty_and_full_turn (env : WorkflowEnv) (sessions : Sessions)
    (request : ChatRequest) (now : String)
    (hfail : delegationFailed env request.message = true) :
    (chat env sessions request now).2.response ≠ ""
    ∧ (get_history (chat env sessions request now).1 request.session_id).messages
      = (get_history sessions request.session_id).messages
        ++ [LogEntry.str request.message,
            LogEntry.str ((chat env sessions request now).2.response)] := by
  constructor
  · rw [chat_response_eq]
    exact chatResponseText_ne_empty_of_failed env request.message hfail
  · rw [chat_response_eq]
    exact chat_log_append env sessions request now

theorem C1_witness :
    delegationFailed envSearchFail "hi" = true
    ∧ (chat envSearchFail [] ⟨"hi", "s1"⟩ "t1").2.response ≠ "" :=
  ⟨by decide, (C1_failure_nonempty_and_full_turn envSearchFail [] ⟨"hi", "s1"⟩ "t1" (by decide)).1⟩

/-- C2 fails on the code: with a failing knowledge lookup the delivered
response is the workflow's own fixed message, not the rule-based variant's
output for the same input — the rule-based variant is never consulted. -/
theorem C2_counterexample :
    delegationFailed envSearchFail "hi" = true
    ∧ (chat envSearchFail [] ⟨"hi", "s2"⟩ "t2").2.response ≠ generate_response_sync "hi" [] := by
  decide

/-- C2 amended: the response always comes from the delegating path itself
(`run_workflow` never raises), and on failure the caller gets that path's
fixed messages — "Sorry, I can\x27t help." when the lookup raised, the
ChatKit-issue apology interpolating the error when the agent invocation
raised — never the rule-based variant's output. -/
theorem C2_amended_fixed_fallbacks (env : WorkflowEnv) (sessions : Sessions)
    (request : ChatRequest) (now : String) :
    run_workflow env ⟨request.message⟩ = Except.ok ((chat env sessions request now).2.response)
    ∧ (∀ e, env.search request.message = Except.error e →
        (chat env sessions request now).2.response = "Sorry, I can\x27t help.")
    ∧ (∀ r e, transform_result env request.message = some r → r ≠ "" →
        env.agentRun r request.message = Except.error e →
        (chat env sessions request now).2.response
          = "I\x27m Edison, your AI assistant. I encountered an issue with the ChatKit workflow: "
            ++ e ++ ". How can I help you today?") := by
  obtain ⟨s, hs⟩ := run_workflow_isOk env ⟨request.message⟩
  have hresp : (chat env sessions request now).2.response = s := by
    rw [chat_response_eq]
    exact chatResponseText_of_run env request.message s hs
  refine ⟨?_, ?_, ?_⟩
  · rw [hresp, hs]
  · intro e hS
    have hT : transform_result env request.message = none := by simp [transform_result, hS]
    have h2 := run_workflow_cannot_help env ⟨request.message⟩ (Or.inl hT)
    rw [hs] at h2
    rw [hresp]
    exact Except.ok.inj h2
  · intro r e hT hr hA
    have h2 := run_workflow_agent_error env ⟨request.message⟩ r e hT hr hA
    rw [hs] at h2
    rw [hresp]
    exact Except.ok.inj h2

theorem C2_witness :
    envSearchFail.search "hi" = Except.error "connection refused"
    ∧ (chat envSearchFail [] ⟨"hi", "s2"⟩ "t2").2.response = "Sorry, I can\x27t help." :=
  ⟨rfl, (C2_amended_fixed_fallbacks envSearchFail [] ⟨"hi", "s2"⟩ "t2").2.1 "connection refused" rfl⟩

/-- C3 fails on the code: after one turn the history's entries are bare
content strings, not Message records carrying role, content and timestamp. -/
theorem C3_counterexample :
    ((get_history (chat envSearchFail [] ⟨"hi", "s3"⟩ "t3").1 "s3").messages.all
      LogEntry.isMsg) = false := by
  decide

/-- C3 amended: `GET /api/chat/history/{session_id}` returns the session's
current log under the requested id — the empty sequence for an absent
session — but the log holds only the content strings appended by the chat
turns, with no role or timestamp attached. -/
theorem C3_amended_history_is_content_log (sessions : Sessions) (sid : String)
    (env : WorkflowEnv) (request : ChatRequest) (now : String)
    (habsent : dictGet sessions sid = none) :
    (get_history sessions sid).session_id = sid
    ∧ (get_history sessions sid).messages = []
    ∧ (get_history (chat env sessions request now).1 request.session_id).messages
      = (get_history sessions request.session_id).messages
        ++ [LogEntry.str request.message, LogEntry.str (chatResponseText env request.message)] :=
  ⟨rfl, by simp [get_history, habsent], chat_log_append env sessions request now⟩

theorem C3_witness :
    dictGet ([] : Sessions) "s3" = none
    ∧ (get_history ([] : Sessions) "s3").messages = [] :=
  ⟨rfl, (C3_amended_history_is_content_log [] "s3" envSearchFail ⟨"x", "s3"⟩ "t" rfl).2.1⟩

/-- C4: after N sequentially completed turns on one fresh session id the
history has exactly 2N entries in call order, alternating the turn's user
text then its assistant response. -/
theorem C4_two_n_alternating (env : WorkflowEnv) (sessions : Sessions) (sid : String)
    (turns : List (String × String)) (hfresh : dictGet sessions sid = none) :
    (get_history (runTurns env sessions sid turns) sid).messages
      = (turns.map (fun t => [LogEntry.str t.1,
          LogEntry.str (chatResponseText env t.1)])).flatten
    ∧ (get_history (runTurns env sessions sid turns) sid).messages.length
      = 2 * turns.length := by
  have h := runTurns_log env sid turns sessions
  rw [hfresh] at h
  simp only [Option.getD_none, List.nil_append] at h
  constructor
  · exact h
  · show ((dictGet (runTurns env sessions sid turns) sid).getD []).length = _
    rw [h]
    exact join_pairs_length LogEntry.str (fun x => LogEntry.str (chatResponseText env x)) turns

theorem C4_witness :
    dictGet ([] : Sessions) "s4" = none
    ∧ (get_history (runTurns envSearchFail [] "s4" [("hi", "t1"), ("bye", "t2")]) "s4").messages.length
      = 2 * 2 :=
  ⟨rfl, (C4_two_n_alternating envSearchFail [] "s4" [("hi", "t1"), ("bye", "t2")] rfl).2⟩

/-- C5 fails on the code: the stored entries of a turn are bare content
strings, so no timestamp at all is attached to the stored user and
assistant messages. -/
theorem C5_counterexample :
    (get_history (chat envSearchFail [] ⟨"yo", "s5"⟩ "2024-01-01T00:00:00").1 "s5").messages
      = [LogEntry.str "yo", LogEntry.str "Sorry, I can\x27t help."]
    ∧ ((get_history (chat envSearchFail [] ⟨"yo", "s5"⟩ "2024-01-01T00:00:00").1 "s5").messages.all
        LogEntry.isMsg) = false := by
  decide

/-- C5 amended: one timestamp is created per request; it is shared by the
constructed user and assistant `Message` values and returned in the
response, but the store keeps only the two content strings, which carry no
timestamp. -/
theorem C5_amended_single_timestamp (env : WorkflowEnv) (sessions : Sessions)
    (request : ChatRequest) (now : String)
    (hfresh : dictGet sessions request.session_id = none) :
    (chat env sessions request now).2.timestamp = now
    ∧ (chat_user_message request now).timestamp
      = (chat_assistant_message ((chat env sessions request now).2.response) now).timestamp
    ∧ (get_history (chat env sessions request now).1 request.session_id).messages
      = [LogEntry.str (chat_user_message request now).content,
         LogEntry.str (chat_assistant_message ((chat env sessions request now).2.response) now).content] := by
  refine ⟨rfl, rfl, ?_⟩
  have h := chat_log_append env sessions request now
  rw [hfresh] at h
  simpa [chat_user_message, chat_assistant_message, chat_response_eq] using h

theorem C5_witness :
    dictGet ([] : Sessions) "s5w" = none
    ∧ (chat envSearchFail [] ⟨"yo", "s5w"⟩ "t5").2.timestamp = "t5" :=
  ⟨rfl, (C5_amended_single_timestamp envSearchFail [] ⟨"yo", "s5w"⟩ "t5" rfl).1⟩

/-- C6: the rule-based variant applies its checks to the lowercased input in
source order with the first match winning — greeting, special-name mention,
identity question, capability question, question mark, default echo;
"hello, who are you?" gets the greeting response, and an input matching no
rule gets the echo template containing the input text verbatim. -/
theorem C6_rule_order :
    (∀ h, generate_response_sync "hello, who are you?" h
      = "Hello! I\x27m Edison, here to help you. What would you like to know?")
    ∧ (∀ m h, matches_greeting (strLower m) = true →
        generate_response_sync m h
          = "Hello! I\x27m Edison, here to help you. What would you like to know?")
    ∧ (∀ m h, matches_greeting (strLower m) = false → matches_stella (strLower m) = true →
        generate_response_sync m h
          = "Stella is currently unavailable, but I\x27m here to assist you with whatever you need!")
    ∧ (∀ m h, matches_greeting (strLower m) = false → matches_stella (strLower m) = false →
        matches_identity (strLower m) = true →
        generate_response_sync m h
          = "I am Edison, an AI assistant. Stella is unavailable right now, so I will be handling all your queries. I\x27m here to help answer questions, provide information, and assist you with various tasks!")
    ∧ (∀ m h, matches_greeting (strLower m) = false → matches_stella (strLower m) = false →
        matches_identity (strLower m) = false → matches_capability (strLower m) = true →
        generate_response_sync m h
          = "I can help you with various tasks such as:\n- Answering questions\n- Providing information\n- Having conversations\n- And much more!\n\nNote: I\x27m now powered by OpenAI\x27s ChatKit agents for intelligent responses.")
    ∧ (∀ m h, matches_greeting (strLower m) = false → matches_stella (strLower m) = false →
        matches_identity (strLower m) = false → matches_capability (strLower m) = false →
        strContains (strLower m) "?" = true →
        generate_response_sync m h
          = "That\x27s an interesting question! Let me think about that: \x27" ++ m ++ "\x27. I\x27m processing this with my AI capabilities.")
    ∧ (∀ m h, matches_greeting (strLower m) = false → matches_stella (strLower m) = false →
        matches_identity (strLower m) = false → matches_capability (strLower m) = false →
        strContains (strLower m) "?" = false →
        generate_response_sync m h
          = "I understand you said: \x27" ++ m ++ "\x27. I\x27m Edison, your AI assistant powered by OpenAI ChatKit, ready to help with any questions or tasks you have.") := by
  refine ⟨?_, ?_, ?_, ?_, ?_, ?_, ?_⟩
  · intro h
    rw [generate_response_sync_hist_irrel]
    decide
  · intro m h hg
    simp [generate_response_sync, hg]
  · intro m h hg hst
    simp [generate_response_sync, hg, hst]
  · intro m h hg hst hid
    simp [generate_response_sync, hg, hst, hid]
  · intro m h hg hst hid hcap
    simp [generate_response_sync, hg, hst, hid, hcap]
  · intro m h hg hst hid hcap hq
    rw [strContains_lower_qmark] at hq
    simp [generate_response_sync, hg, hst, hid, hcap, hq]
  · intro m h hg hst hid hcap hq
    rw [strContains_lower_qmark] at hq
    simp [generate_response_sync, hg, hst, hid, hcap, hq]

theorem C6_witness :
    matches_greeting (strLower "hello, who are you?") = true
    ∧ generate_response_sync "hello, who are you?" []
      = "Hello! I\x27m Edison, here to help you. What would you like to know?"
    ∧ matches_greeting (strLower "random text") = false
    ∧ matches_stella (strLower "random text") = false
    ∧ matches_identity (strLower "random text") = false
    ∧ matches_capability (strLower "random text") = false
    ∧ strContains (strLower "random text") "?" = false
    ∧ generate_response_sync "random text" []
      = "I understand you said: \x27" ++ "random text"
        ++ "\x27. I\x27m Edison, your AI assistant powered by OpenAI ChatKit, ready to help with any questions or tasks you have." :=
  ⟨by decide, C6_rule_order.1 [], by decide, by decide, by decide, by decide, by decide,
    C6_rule_order.2.2.2.2.2.2 "random text" [] (by decide) (by decide) (by decide) (by decide)
      (by decide)⟩

/-- C7: for a never-seen session id the history is the empty sequence and
clearing is a safe no-op that creates no session; clearing twice in a row
leaves an empty history after each call. -/
theorem C7_fresh_and_idempotent_clear (sessions : Sessions) (sid : String) :
    (dictGet sessions sid = none →
      (get_history sessions sid).messages = []
      ∧ (clear_chat sessions (some sid)).1 = sessions)
    ∧ (get_history (clear_chat sessions (some sid)).1 sid).messages = []
    ∧ (get_history (clear_chat (clear_chat sessions (some sid)).1 (some sid)).1 sid).messages
      = [] :=
  ⟨fun h => ⟨by simp [get_history, h], by simp [clear_chat, h]⟩,
    get_history_clear sessions sid,
    get_history_clear (clear_chat sessions (some sid)).1 sid⟩

theorem C7_witness :
    dictGet ([] : Sessions) "s7" = none
    ∧ (clear_chat ([] : Sessions) (some "s7")).1 = [] :=
  ⟨rfl, ((C7_fresh_and_idempotent_clear [] "s7").1 rfl).2⟩

/-- C8: the rule-based variant is deterministic and history-insensitive —
identical input text yields the identical response whatever history
argument each invocation receives. -/
theorem C8_sync_deterministic (user_message : String) (h1 h2 : List LogEntry) :
    generate_response_sync user_message h1 = generate_response_sync user_message h2 := rfl

/-- C9 exhibits the divergence: when the knowledge lookup completes with
zero matches, `run_workflow` does not return the fixed cannot-help message —
the truthy sentinel "No relevant knowledge found" is passed to the remote
agent as knowledge and the agent's output is returned. -/
theorem C9_agent_invoked_on_zero_matches :
    run_workflow envNoMatches ⟨"what is X?"⟩
      = Except.ok ("AGENT INVOKED with: " ++ "No relevant knowledge found")
    ∧ run_workflow envNoMatches ⟨"what is X?"⟩ ≠ Except.ok "Sorry, I can\x27t help." := by
  decide

/-- C10: generate_response is total at its boundary — every modelled
collaborator behaviour yields an `ok` string, whatever history it is given —
so the chat endpoint's except branch (the `generate_response_sync`
fallback) is never taken and the response is always the delegating path's
output. -/
theorem C10_generate_response_total (env : WorkflowEnv) (sessions : Sessions)
    (request : ChatRequest) (now : String) :
    ∃ s, (∀ history, generate_response env request.message history = Except.ok s)
      ∧ (chat env sessions request now).2.response = s := by
  obtain ⟨s, hs⟩ := run_workflow_isOk env ⟨request.message⟩
  refine ⟨s, fun history => ?_, ?_⟩
  · rw [generate_response_hist_irrel]
    simp only [generate_response, hs]
  · rw [chat_response_eq]
    exact chatResponseText_of_run env request.message s hs

end Edison
